import Mathlib

/-!
# LazyKitty build coordinator and manifest engine: a shallow embedding

This file embeds the core of the LazyKitty server in Lean: the build
record data model, the JSON-file key-value store with its single build
lock (`services/kv.ts`), the upload route (`routes/upload.ts`), the
webhook route (`routes/webhook.ts`), the builder services and their
timeout handlers (`services/builder.ts`), the manifest generators
(`lib/manifest.ts` in the API package and `build.ts` in the builder
package, including the deterministic UUID derivation through SHA-256),
and the multipart manifest response of `routes/manifest.ts`.

Asynchronous handlers are embedded as pure functions over an explicit
`KVData` state.  Every call of `new Date().toISOString()` inside one
handler invocation is modelled by one `now : String` parameter of that
handler; distinct invocations receive distinct parameters.  Randomness
(`nanoid`, `Date.now()`) is likewise passed in as a parameter.
Filesystem and child-process effects that the claims depend on only
through success or failure are modelled by explicit failure flags.
-/

namespace LazyKitty

/-- Build status union from `shared/src/types.ts`. -/
inductive BuildStatus
  | pending
  | downloading
  | installing
  | building
  | uploading
  | success
  | failed
deriving DecidableEq, Repr

/-- Platform union from `shared/src/types.ts`. -/
inductive Platform
  | ios
  | android
  | all
deriving DecidableEq, Repr

/-- JavaScript truthiness of an optional string value: `undefined`,
`null` and the empty string are falsy. -/
def strTruthy : Option String → Bool
  | none => false
  | some s => s != ""

/-- `ExpoClientConfig` from `shared/src/types.ts`.  `name` and `slug`
are declared required but the code guards every access with `?.` and
`??`, so they are modelled as optional; `owner` arrives through the
index signature. -/
structure ExpoClientConfig where
  name : Option String := none
  slug : Option String := none
  owner : Option String := none
deriving DecidableEq, Repr

/-- `ExpoAsset` from `shared/src/types.ts`. -/
structure ExpoAsset where
  key : String
  hash : String
  contentType : String
  fileExtension : Option String := none
  url : String
deriving DecidableEq, Repr

/-- The `extra` bag of an `ExpoManifest`.  `scopeKey` is declared
required, but `updateManifestUrls` in `lib/manifest.ts` defends against
manifests stored before `scopeKey` existed, so it is optional here. -/
structure ManifestExtra where
  scopeKey : Option String := none
  expoClient : Option ExpoClientConfig := none
deriving DecidableEq, Repr

/-- `ExpoManifest` from `shared/src/types.ts`.  `extra` is optional
because `updateManifestUrls` accesses it as `manifest.extra?.`. -/
structure ExpoManifest where
  id : String
  createdAt : String
  runtimeVersion : String
  launchAsset : ExpoAsset
  assets : List ExpoAsset
  metadata : List (String × String) := []
  extra : Option ManifestExtra := none
deriving DecidableEq, Repr

/-- `AssetMetadata` from `shared/src/types.ts`. -/
structure AssetMetadata where
  key : String
  hash : String
  contentType : String
  fileExtension : Option String := none
  path : String
deriving DecidableEq, Repr

/-- `Build` from `shared/src/types.ts`. -/
structure Build where
  id : String
  projectSlug : String
  status : BuildStatus
  platform : Platform
  runtimeVersion : String
  createdAt : String
  updatedAt : String
  completedAt : Option String := none
  error : Option String := none
  expoConfig : ExpoClientConfig
  manifest : Option ExpoManifest := none
  assets : Option (List AssetMetadata) := none
deriving DecidableEq, Repr

/-- The persistent state of `LocalKVService` (`services/kv.ts`): the
`builds` object (an insertion-ordered string-keyed map, modelled as an
association list without duplicate keys) and the single `buildLock`
flag.  The `apiKeys` array plays no role in the claims. -/
structure KVData where
  builds : List (String × Build)
  buildLock : Bool
deriving DecidableEq, Repr

/-- JavaScript object assignment `obj[k] = v`: an existing key keeps
its position, a new key is appended. -/
def setAssoc : List (String × Build) → String → Build → List (String × Build)
  | [], k, b => [(k, b)]
  | e :: t, k, b => if e.1 = k then (k, b) :: t else e :: setAssoc t k b

/-- `LocalKVService.getBuild`: `data.builds[buildId] ?? null`. -/
def kvGetBuild (kv : KVData) (buildId : String) : Option Build :=
  (kv.builds.find? (fun e => e.1 == buildId)).map (·.2)

/-- `LocalKVService.setBuild`: `data.builds[build.id] = build`. -/
def kvSetBuild (kv : KVData) (b : Build) : KVData :=
  { kv with builds := setAssoc kv.builds b.id b }

/-- `LocalKVService.acquireBuildLock`: test-and-set on `buildLock`;
returns whether the lock was acquired, together with the new state. -/
def kvAcquireBuildLock (kv : KVData) : Bool × KVData :=
  if kv.buildLock then (false, kv)
  else (true, { kv with buildLock := true })

/-- `LocalKVService.releaseBuildLock`: unconditionally clears the flag. -/
def kvReleaseBuildLock (kv : KVData) : KVData :=
  { kv with buildLock := false }

/-- `LocalKVService.isBuildLocked`. -/
def kvIsBuildLocked (kv : KVData) : Bool :=
  kv.buildLock

/-- `WebhookPayload` from `shared/src/types.ts`.  A missing `buildId`
(the handler's `if (!buildId)` guard) is modelled by the empty string. -/
structure WebhookPayload where
  buildId : String
  status : BuildStatus
  error : Option String := none
  manifest : Option ExpoManifest := none
  assets : Option (List AssetMetadata) := none
deriving DecidableEq, Repr

/-- An HTTP status code paired with the store state after the handler. -/
structure WebhookResponse where
  code : Nat
  kv : KVData
deriving DecidableEq, Repr

/-- `POST /v1/webhook/build-complete` (`routes/webhook.ts`): look up
the build (404 when absent), overwrite `status` and `updatedAt`, stamp
`completedAt` and attach the manifest and assets (on `success`) or the
error (on `failed`), persist, then release the build lock. -/
def webhookBuildComplete (now : String) (p : WebhookPayload) (kv : KVData) :
    WebhookResponse :=
  if p.buildId = "" then ⟨400, kv⟩
  else
    match kvGetBuild kv p.buildId with
    | none => ⟨404, kv⟩
    | some build =>
      let build := { build with status := p.status, updatedAt := now }
      let build :=
        if p.status = .success then
          { build with completedAt := some now,
                       manifest := p.manifest, assets := p.assets }
        else if p.status = .failed then
          { build with completedAt := some now,
                       error := some (p.error.getD "Unknown error") }
        else build
      ⟨200, kvReleaseBuildLock (kvSetBuild kv build)⟩

/-- `BUILD_TIMEOUT_MS` from `shared/src/constants.ts`. -/
def BUILD_TIMEOUT_MS : Nat := 15 * 60 * 1000

/-- `MAX_TARBALL_SIZE_BYTES` from `shared/src/constants.ts`. -/
def MAX_TARBALL_SIZE_BYTES : Nat := 100 * 1024 * 1024

/-- `DEFAULT_RUNTIME_VERSION` from `shared/src/constants.ts`. -/
def DEFAULT_RUNTIME_VERSION : String := "exposdk:52.0.0"

/-- The store-visible synchronous part of `triggerBuild`, identical in
`LocalDockerBuilder` and `LocalProcessBuilder` (`services/builder.ts`):
set the record to `pending`, refresh `updatedAt`, persist, then spawn
the executor process.  `dispatchFails` models the spawn throwing
synchronously; the persisted record survives the throw, so the state is
returned alongside the optional error. -/
def triggerBuild (dispatchFails : Bool) (now : String) (b : Build)
    (kv : KVData) : Option String × KVData :=
  let kv := kvSetBuild kv { b with status := .pending, updatedAt := now }
  if dispatchFails then (some "spawn failed", kv) else (none, kv)

/-- The `setTimeout` callback of `LocalProcessBuilder.triggerBuild`
(`services/builder.ts`): kill the subprocess, force the captured build
record to `failed` with the error `"Build timed out"`, persist it, and
release the build lock.  `b` is the record captured by the closure at
dispatch time. -/
def processBuilderTimeout (now : String) (b : Build) (kv : KVData) : KVData :=
  let b := { b with status := .failed, error := some "Build timed out",
                    updatedAt := now }
  kvReleaseBuildLock (kvSetBuild kv b)

/-- The `setTimeout` callback of `LocalDockerBuilder.triggerBuild`
(`services/builder.ts`): it logs and sends SIGTERM to the docker
process and nothing else — it performs no store write and no lock
release.  The returned boolean records that the kill signal was sent. -/
def dockerBuilderTimeout (kv : KVData) : KVData × Bool :=
  (kv, true)

/-- `UploadRequest` from `shared/src/types.ts`.  All fields are
modelled optional because the handler validates them at runtime with
truthiness checks and `??` defaults. -/
structure UploadRequest where
  projectSlug : Option String := none
  platform : Option Platform := none
  runtimeVersion : Option String := none
  expoConfig : Option ExpoClientConfig := none
deriving DecidableEq, Repr

/-- The multipart form data received by `POST /v1/upload`.
`tarballSize` is `some n` when a `tarball` file of `n` bytes is
present; `metadata` is `none` when the field is missing or not a
string, `some none` when it is present but not valid JSON, and
`some (some r)` when it parses to `r`. -/
structure UploadForm where
  tarballSize : Option Nat := none
  metadata : Option (Option UploadRequest) := none
deriving DecidableEq, Repr

/-- An HTTP status code paired with the store state after the handler. -/
structure UploadResult where
  code : Nat
  kv : KVData
deriving DecidableEq, Repr

/-- `POST /v1/upload` (`routes/upload.ts`): reject with 429 while a
build is in progress; validate the form (tarball present, metadata
parses, truthy `projectSlug`, truthy `expoConfig.name` and
`expoConfig.slug`, size bound); acquire the build lock; create and
persist a `pending` build record; upload the tarball; dispatch the
build.  Any throw after lock acquisition is caught: the lock is
released and 500 returned.  `newBuildId` models `bld_${nanoid(12)}`;
`tarUploadFails` models `storage.uploadTarball` throwing. -/
def uploadPost (tarUploadFails dispatchFails : Bool) (now newBuildId : String)
    (form : UploadForm) (kv : KVData) : UploadResult :=
  if kvIsBuildLocked kv then ⟨429, kv⟩
  else
    match form.tarballSize with
    | none => ⟨400, kv⟩
    | some size =>
      match form.metadata with
      | none => ⟨400, kv⟩
      | some none => ⟨400, kv⟩
      | some (some metadata) =>
        if !strTruthy metadata.projectSlug then ⟨400, kv⟩
        else if !strTruthy (metadata.expoConfig.bind (·.name)) ||
                !strTruthy (metadata.expoConfig.bind (·.slug)) then ⟨400, kv⟩
        else if size > MAX_TARBALL_SIZE_BYTES then ⟨400, kv⟩
        else
          match kvAcquireBuildLock kv with
          | (false, kv) => ⟨429, kv⟩
          | (true, kv) =>
            let build : Build :=
              { id := newBuildId
                projectSlug := metadata.projectSlug.getD ""
                status := .pending
                platform := metadata.platform.getD .all
                runtimeVersion := metadata.runtimeVersion.getD DEFAULT_RUNTIME_VERSION
                createdAt := now
                updatedAt := now
                expoConfig := metadata.expoConfig.getD {} }
            let kv := kvSetBuild kv build
            if tarUploadFails then ⟨500, kvReleaseBuildLock kv⟩
            else
              match triggerBuild dispatchFails now build kv with
              | (some _, kv) => ⟨500, kvReleaseBuildLock kv⟩
              | (none, kv) => ⟨201, kv⟩

/-! ## SHA-256 (`node:crypto` `createHash('sha256')`), as used by
`generateUUID` in `lib/manifest.ts`.  The implementation below is the
standard FIPS 180-4 algorithm over byte lists, with 32-bit words
represented as `Nat` reduced modulo `2 ^ 32`. -/

/-- Truncation to a 32-bit word. -/
def w32 (x : Nat) : Nat := x % 4294967296

/-- Right rotation of a 32-bit word. -/
def rotr32 (n x : Nat) : Nat := w32 ((x >>> n) ||| (x <<< (32 - n)))

/-- Bitwise complement within 32 bits. -/
def notw (x : Nat) : Nat := x ^^^ 4294967295

/-- SHA-256 `Ch` function. -/
def shaCh (x y z : Nat) : Nat := (x &&& y) ^^^ (notw x &&& z)

/-- SHA-256 `Maj` function. -/
def shaMaj (x y z : Nat) : Nat := (x &&& y) ^^^ (x &&& z) ^^^ (y &&& z)

/-- SHA-256 `Σ₀`. -/
def bigSigma0 (x : Nat) : Nat := rotr32 2 x ^^^ rotr32 13 x ^^^ rotr32 22 x

/-- SHA-256 `Σ₁`. -/
def bigSigma1 (x : Nat) : Nat := rotr32 6 x ^^^ rotr32 11 x ^^^ rotr32 25 x

/-- SHA-256 `σ₀`. -/
def smallSigma0 (x : Nat) : Nat := rotr32 7 x ^^^ rotr32 18 x ^^^ (x >>> 3)

/-- SHA-256 `σ₁`. -/
def smallSigma1 (x : Nat) : Nat := rotr32 17 x ^^^ rotr32 19 x ^^^ (x >>> 10)

/-- The 64 SHA-256 round constants of FIPS 180-4, written in decimal. -/
def sha256K : List Nat :=
  [1116352408, 1899447441, 3049323471, 3921009573, 961987163,
   1508970993, 2453635748, 2870763221, 3624381080, 310598401,
   607225278, 1426881987, 1925078388, 2162078206, 2614888103,
   3248222580, 3835390401, 4022224774, 264347078, 604807628,
   770255983, 1249150122, 1555081692, 1996064986, 2554220882,
   2821834349, 2952996808, 3210313671, 3336571891, 3584528711,
   113926993, 338241895, 666307205, 773529912, 1294757372,
   1396182291, 1695183700, 1986661051, 2177026350, 2456956037,
   2730485921, 2820302411, 3259730800, 3345764771, 3516065817,
   3600352804, 4094571909, 275423344, 430227734, 506948616,
   659060556, 883997877, 958139571, 1322822218, 1537002063,
   1747873779, 1955562222, 2024104815, 2227730452, 2361852424,
   2428436474, 2756734187, 3204031479, 3329325298]

/-- The eight 32-bit working variables of the compression function. -/
structure Sha256State where
  a : Nat
  b : Nat
  c : Nat
  d : Nat
  e : Nat
  f : Nat
  g : Nat
  h : Nat
deriving DecidableEq, Repr

/-- The SHA-256 initial hash value of FIPS 180-4, written in decimal. -/
def sha256InitState : Sha256State :=
  ⟨1779033703, 3144134277, 1013904242, 2773480762,
   1359893119, 2600822924, 528734635, 1541459225⟩

/-- Padding: append `0x80`, zero bytes, and the 64-bit big-endian bit
length, to a multiple of 64 bytes. -/
def sha256Pad (msg : List Nat) : List Nat :=
  let len := msg.length
  let padZeros := (64 - ((len + 9) % 64)) % 64
  msg ++ [0x80] ++ List.replicate padZeros 0 ++
    ([56, 48, 40, 32, 24, 16, 8, 0].map (fun s => ((len * 8) >>> s) % 256))

/-- The sixteen big-endian 32-bit words of one 64-byte block. -/
def blockWords (block : List Nat) : List Nat :=
  (List.range 16).map (fun i =>
    w32 (block.getD (4 * i) 0 * 16777216 + block.getD (4 * i + 1) 0 * 65536 +
         block.getD (4 * i + 2) 0 * 256 + block.getD (4 * i + 3) 0))

/-- The 64-entry message schedule of one block. -/
def sha256Schedule (block : List Nat) : List Nat :=
  (List.range 48).foldl
    (fun w _ =>
      let n := w.length
      let next := w32 (smallSigma1 (w.getD (n - 2) 0) + w.getD (n - 7) 0 +
                       smallSigma0 (w.getD (n - 15) 0) + w.getD (n - 16) 0)
      w ++ [next])
    (blockWords block)

/-- One round of the compression function; `kw` is the pair of round
constant and schedule word. -/
def sha256Round (st : Sha256State) (kw : Nat × Nat) : Sha256State :=
  let t1 := w32 (st.h + bigSigma1 st.e + shaCh st.e st.f st.g + kw.1 + kw.2)
  let t2 := w32 (bigSigma0 st.a + shaMaj st.a st.b st.c)
  ⟨w32 (t1 + t2), st.a, st.b, st.c, w32 (st.d + t1), st.e, st.f, st.g⟩

/-- Process one 64-byte block. -/
def sha256Block (st : Sha256State) (block : List Nat) : Sha256State :=
  let fin := (sha256K.zip (sha256Schedule block)).foldl sha256Round st
  ⟨w32 (st.a + fin.a), w32 (st.b + fin.b), w32 (st.c + fin.c), w32 (st.d + fin.d),
   w32 (st.e + fin.e), w32 (st.f + fin.f), w32 (st.g + fin.g), w32 (st.h + fin.h)⟩

/-- SHA-256 digest of a byte list, as a list of 32 bytes. -/
def sha256Bytes (msg : List Nat) : List Nat :=
  let padded := sha256Pad msg
  let blocks := (List.range (padded.length / 64)).map
    (fun i => (padded.drop (64 * i)).take 64)
  let st := blocks.foldl sha256Block sha256InitState
  ([st.a, st.b, st.c, st.d, st.e, st.f, st.g, st.h]).flatMap
    (fun x => [(x >>> 24) % 256, (x >>> 16) % 256, (x >>> 8) % 256, x % 256])

/-- Standard UTF-8 encoding of one Unicode scalar value. -/
def utf8Encode (c : Nat) : List Nat :=
  if c < 0x80 then [c]
  else if c < 0x800 then
    [0xC0 ||| (c >>> 6), 0x80 ||| (c &&& 0x3F)]
  else if c < 0x10000 then
    [0xE0 ||| (c >>> 12), 0x80 ||| ((c >>> 6) &&& 0x3F), 0x80 ||| (c &&& 0x3F)]
  else
    [0xF0 ||| (c >>> 18), 0x80 ||| ((c >>> 12) &&& 0x3F),
     0x80 ||| ((c >>> 6) &&& 0x3F), 0x80 ||| (c &&& 0x3F)]

/-- UTF-8 bytes of a string (`createHash(...).update(input)` hashes the
UTF-8 encoding). -/
def stringToBytes (s : String) : List Nat :=
  s.data.flatMap (fun c => utf8Encode c.toNat)

/-- Lower-case hexadecimal digit, as produced by
`Number.prototype.toString(16)`. -/
def hexDigitChar (n : Nat) : Char :=
  if n < 10 then Char.ofNat (48 + n) else Char.ofNat (87 + n)

/-- `b.toString(16).padStart(2, '0')` for a byte `b < 256`. -/
def byteToHex (b : Nat) : List Char :=
  [hexDigitChar (b / 16), hexDigitChar (b % 16)]

/-- JavaScript `String.prototype.slice(a, b)` for `0 ≤ a ≤ b`. -/
def jsSlice (s : String) (a b : Nat) : String :=
  ⟨(s.data.drop a).take (b - a)⟩

/-- `generateUUID` from `lib/manifest.ts`: SHA-256 the input, take the
first 16 bytes, force the version nibble to 4 and the variant bits to
`10`, and format as a canonical UUID string. -/
def generateUUID (input : String) : String :=
  let hash := sha256Bytes (stringToBytes input)
  let bytes := hash.take 16
  let bytes := bytes.set 6 ((bytes.getD 6 0 &&& 0x0f) ||| 0x40)
  let bytes := bytes.set 8 ((bytes.getD 8 0 &&& 0x3f) ||| 0x80)
  let hex : String := ⟨bytes.flatMap byteToHex⟩
  jsSlice hex 0 8 ++ "-" ++ jsSlice hex 8 12 ++ "-" ++ jsSlice hex 12 16 ++
    "-" ++ jsSlice hex 16 20 ++ "-" ++ jsSlice hex 20 32

/-- `MIME_TYPES.JAVASCRIPT` from `shared/src/constants.ts`. -/
def MIME_JAVASCRIPT : String := "application/javascript"

/-- JavaScript `String.prototype.includes(sub)`. -/
def strIncludes (s sub : String) : Bool :=
  (List.range (s.data.length + 1)).any
    (fun i => ((s.data.drop i).take sub.data.length) == sub.data)

/-- `ManifestOptions` from `lib/manifest.ts`; `platform` is already
normalized to `"ios"` or `"android"` by the route. -/
structure ManifestOptions where
  baseUrl : String
  platform : String
deriving DecidableEq, Repr

namespace Api

/-- `updateManifestUrls` from `lib/manifest.ts`: re-derive the id when
it is not UUID-shaped, backfill `scopeKey` for manifests stored before
it existed, and prefix relative asset URLs with the current request's
assets base URL, leaving absolute URLs (containing `://`) untouched. -/
def updateManifestUrls (manifest : ExpoManifest) (baseUrl buildId : String) :
    ExpoManifest :=
  let assetsBaseUrl := baseUrl ++ "/v1/assets/" ++ buildId
  let id := if manifest.id.data.contains '-' then manifest.id
            else generateUUID manifest.id
  let storedScopeKey := manifest.extra.bind (·.scopeKey)
  let storedSlug := (manifest.extra.bind (·.expoClient)).bind (·.slug)
  let scopeKey :=
    if strTruthy storedScopeKey then storedScopeKey.getD ""
    else if strTruthy storedSlug then "@anonymous/" ++ storedSlug.getD ""
    else "@anonymous/app"
  { manifest with
    id := id
    extra := some { scopeKey := some scopeKey
                    expoClient := manifest.extra.bind (·.expoClient) }
    launchAsset := { manifest.launchAsset with
      url := if strIncludes manifest.launchAsset.url "://" then
               manifest.launchAsset.url
             else assetsBaseUrl ++ "/" ++ manifest.launchAsset.url }
    assets := manifest.assets.map (fun asset =>
      { asset with url := if strIncludes asset.url "://" then asset.url
                          else assetsBaseUrl ++ "/" ++ asset.url }) }

/-- `generateManifest` from `lib/manifest.ts` (API package): when the
build already carries a stored manifest, rewrite its URLs; otherwise
derive a fresh manifest from the build metadata, including the
`scopeKey` derivation from `expoConfig`. -/
def generateManifest (build : Build) (options : ManifestOptions) : ExpoManifest :=
  match build.manifest with
  | some m => updateManifestUrls m options.baseUrl build.id
  | none =>
    let assetsBaseUrl := options.baseUrl ++ "/v1/assets/" ++ build.id
    let launchAsset : ExpoAsset :=
      { key := "bundle", hash := "", contentType := MIME_JAVASCRIPT,
        url := assetsBaseUrl ++ "/bundles/" ++ options.platform ++ ".js" }
    let assets := ((build.assets.getD []).filter (fun a => a.key != "bundle")).map
      (fun asset =>
        { key := asset.key, hash := asset.hash, contentType := asset.contentType,
          fileExtension := asset.fileExtension,
          url := assetsBaseUrl ++ "/" ++ asset.path })
    let slug := build.expoConfig.slug.getD "app"
    let owner := build.expoConfig.owner
    let scopeKey :=
      if strTruthy owner then "@" ++ owner.getD "" ++ "/" ++ slug
      else "@anonymous/" ++ slug
    { id := generateUUID build.id
      createdAt := build.createdAt
      runtimeVersion := build.runtimeVersion
      launchAsset := launchAsset
      assets := assets
      metadata := []
      extra := some { scopeKey := some scopeKey
                      expoClient := some build.expoConfig } }

end Api

/-- The `extra.scopeKey` of a manifest. -/
def manifestScopeKey (m : ExpoManifest) : Option String :=
  m.extra.bind (·.scopeKey)

/-- Node `path.extname`: the substring of the basename from its last
dot, or the empty string when the basename has no dot after its first
character. -/
def extname (p : String) : String :=
  let cs := p.data
  let slashIdxs := (List.range cs.length).filter (fun i => cs.getD i ' ' == '/')
  let base :=
    match slashIdxs.getLast? with
    | none => cs
    | some i => cs.drop (i + 1)
  let dotIdxs := (List.range base.length).filter (fun i => base.getD i ' ' == '.')
  match dotIdxs.getLast? with
  | none => ""
  | some i => if i = 0 then "" else ⟨base.drop i⟩

/-- The `bundles` field extracted from `metadata.json` by
`collectAssets` (`builder/src/build.ts`). -/
structure Bundles where
  ios : Option String := none
  android : Option String := none
deriving DecidableEq, Repr

namespace Builder

/-- `generateManifest` from `builder/src/build.ts`: pick the bundle
path (`ios` platform uses the iOS bundle; any other platform uses the
android bundle, falling back to the iOS one via `??`), throw when it is
missing, locate the bundle's collected asset, and assemble the
manifest.  Thrown errors are modelled as `Except.error` with the thrown
message. -/
def generateManifest (buildId runtimeVersion now : String)
    (expoConfig : ExpoClientConfig) (assets : List AssetMetadata)
    (bundles : Bundles) (platform : String) : Except String ExpoManifest :=
  let bundlePath : Option String :=
    if platform = "ios" then bundles.ios
    else match bundles.android with
         | some a => some a
         | none => bundles.ios
  if !strTruthy bundlePath then
    .error ("No bundle path found for platform " ++ platform)
  else
    let bp := bundlePath.getD ""
    match assets.find? (fun a => a.path == bp) with
    | none => .error ("Bundle not found at path " ++ bp ++ " for platform " ++ platform)
    | some bundleAsset =>
      let bundleExt := extname bp
      let bundleContentType :=
        if bundleExt = ".hbc" then "application/javascript" else MIME_JAVASCRIPT
      let launchAsset : ExpoAsset :=
        { key := "bundle", hash := bundleAsset.hash,
          contentType := bundleContentType,
          url := "bundles/" ++ platform ++ bundleExt }
      let bundlePaths :=
        (([bundles.ios, bundles.android].filterMap id).filter (fun s => s != ""))
      let otherAssets := (assets.filter
          (fun a => !(bundlePaths.contains a.path) && a.path != "metadata.json")).map
        (fun asset =>
          { key := asset.key, hash := asset.hash,
            contentType := asset.contentType,
            fileExtension := asset.fileExtension, url := asset.path })
      let slug := expoConfig.slug.getD "app"
      let owner := expoConfig.owner
      let scopeKey :=
        if strTruthy owner then "@" ++ owner.getD "" ++ "/" ++ slug
        else "@anonymous/" ++ slug
      .ok { id := buildId
            createdAt := now
            runtimeVersion := runtimeVersion
            launchAsset := launchAsset
            assets := otherAssets
            metadata := []
            extra := some { scopeKey := some scopeKey
                            expoClient := some expoConfig } }

end Builder

/-! ## JSON serialization and the manifest route (`routes/manifest.ts`).
`JSON.stringify` is modelled by a structural serializer over the
manifest record: fields follow declaration order, absent optional
fields are omitted (as `JSON.stringify` omits `undefined` values), and
string values are escaped. -/

/-- Escape of one character inside a JSON string literal, as performed
by `JSON.stringify`. -/
def jsonEscapeChar (c : Char) : String :=
  if c = '"' then "\\\""
  else if c = '\\' then "\\\\"
  else if c = Char.ofNat 8 then "\\b"
  else if c = Char.ofNat 9 then "\\t"
  else if c = Char.ofNat 10 then "\\n"
  else if c = Char.ofNat 12 then "\\f"
  else if c = Char.ofNat 13 then "\\r"
  else if c.toNat < 32 then "\\u00" ++ ⟨byteToHex c.toNat⟩
  else String.singleton c

/-- A JSON string literal. -/
def jsonStr (s : String) : String :=
  "\"" ++ String.join (s.data.map jsonEscapeChar) ++ "\""

/-- Serialization of an `ExpoAsset`. -/
def jsonAsset (a : ExpoAsset) : String :=
  "\x7b\"key\":" ++ jsonStr a.key ++ ",\"hash\":" ++ jsonStr a.hash ++
  ",\"contentType\":" ++ jsonStr a.contentType ++
  (match a.fileExtension with
   | none => ""
   | some e => ",\"fileExtension\":" ++ jsonStr e) ++
  ",\"url\":" ++ jsonStr a.url ++ "\x7d"

/-- Serialization of an `ExpoClientConfig`. -/
def jsonConfig (c : ExpoClientConfig) : String :=
  let fields :=
    (match c.name with | none => [] | some v => ["\"name\":" ++ jsonStr v]) ++
    (match c.slug with | none => [] | some v => ["\"slug\":" ++ jsonStr v]) ++
    (match c.owner with | none => [] | some v => ["\"owner\":" ++ jsonStr v])
  "\x7b" ++ String.intercalate "," fields ++ "\x7d"

/-- Serialization of a manifest `extra` bag. -/
def jsonExtra (e : ManifestExtra) : String :=
  let fields :=
    (match e.scopeKey with
     | none => []
     | some v => ["\"scopeKey\":" ++ jsonStr v]) ++
    (match e.expoClient with
     | none => []
     | some c => ["\"expoClient\":" ++ jsonConfig c])
  "\x7b" ++ String.intercalate "," fields ++ "\x7d"

/-- `JSON.stringify` of a manifest object. -/
def stringifyManifest (m : ExpoManifest) : String :=
  "\x7b\"id\":" ++ jsonStr m.id ++
  ",\"createdAt\":" ++ jsonStr m.createdAt ++
  ",\"runtimeVersion\":" ++ jsonStr m.runtimeVersion ++
  ",\"launchAsset\":" ++ jsonAsset m.launchAsset ++
  ",\"assets\":[" ++ String.intercalate "," (m.assets.map jsonAsset) ++ "]" ++
  ",\"metadata\":\x7b" ++
    String.intercalate "," (m.metadata.map (fun p => jsonStr p.1 ++ ":" ++ jsonStr p.2)) ++
  "\x7d" ++
  (match m.extra with
   | none => ""
   | some e => ",\"extra\":" ++ jsonExtra e) ++
  "\x7d"

/-- `Array.prototype.join('\r\n')`. -/
def joinCRLF : List String → String
  | [] => ""
  | [x] => x
  | x :: xs => x ++ "\r\n" ++ joinCRLF xs

/-- `createMultipartResponse` from `routes/manifest.ts`: a `manifest`
part with the manifest JSON, an `extensions` part with an empty
`assetRequestHeaders` map, and the closing boundary marker followed by
a trailing CRLF, all joined with CRLF. -/
def createMultipartResponse (manifestJson : ExpoManifest) (boundary : String) :
    String :=
  joinCRLF
    [ "--" ++ boundary
    , "Content-Disposition: form-data; name=\"manifest\""
    , "Content-Type: application/json"
    , ""
    , stringifyManifest manifestJson
    , "--" ++ boundary
    , "Content-Disposition: form-data; name=\"extensions\""
    , "Content-Type: application/json"
    , ""
    , "\x7b\"assetRequestHeaders\":\x7b\x7d\x7d"
    , "--" ++ boundary ++ "--"
    , "" ]

/-- `EXPO_PROTOCOL_VERSION` from `shared/src/constants.ts`. -/
def EXPO_PROTOCOL_VERSION : String := "1"

/-- The request data consumed by `GET /v1/manifest/:id`: the path
parameter, the Expo protocol headers, the `Accept` header, the
forwarded-proto/host and `Host` headers, and the protocol and host of
the connection URL. -/
structure ManifestRequest where
  buildId : String
  platform : Option String := none
  runtimeVersion : Option String := none
  protocolVersion : Option String := none
  accept : Option String := none
  forwardedProto : Option String := none
  forwardedHost : Option String := none
  hostHeader : Option String := none
  urlProtocol : String := "http:"
  urlHost : String := "localhost:3000"
deriving DecidableEq, Repr

/-- The body-relevant outcome of the manifest route: a JSON error with
its status code, a multipart body with its boundary, or a plain JSON
manifest body. -/
inductive ManifestResponse
  | jsonError (code : Nat) (msg : String)
  | multipart (boundary : String) (body : String)
  | json (m : ExpoManifest)
deriving DecidableEq, Repr

/-- `GET /v1/manifest/:id` (`routes/manifest.ts`): validate the
protocol version header, look up the build (404 when absent, 404 "Build
not ready" when not successful), normalize the platform (defaulting to
iOS), compute the base URL preferring forwarded headers, generate the
manifest, replace its id with `generateUUID(build.id)`, and answer
multipart when `Accept` includes `multipart/mixed`, JSON otherwise.
`nowMs` models `Date.now()` in the boundary derivation. -/
def manifestGet (nowMs : String) (req : ManifestRequest) (kv : KVData) :
    ManifestResponse :=
  let accept := req.accept.getD ""
  if strTruthy req.protocolVersion &&
     req.protocolVersion.getD "" != EXPO_PROTOCOL_VERSION then
    .jsonError 400 ("Unsupported protocol version: " ++ req.protocolVersion.getD "")
  else
    match kvGetBuild kv req.buildId with
    | none => .jsonError 404 "Build not found"
    | some build =>
      if build.status != .success then .jsonError 404 "Build not ready"
      else
        let targetPlatform :=
          if req.platform = some "ios" ∨ req.platform = some "android" then
            req.platform.getD ""
          else "ios"
        let forwardedHost :=
          match req.forwardedHost with
          | some fh => some fh
          | none => req.hostHeader
        let protocol :=
          if strTruthy req.forwardedProto then req.forwardedProto.getD "" ++ ":"
          else req.urlProtocol
        let host := forwardedHost.getD req.urlHost
        let baseUrl := protocol ++ "//" ++ host
        let expoManifest :=
          Api.generateManifest build { baseUrl := baseUrl, platform := targetPlatform }
        let manifestId := generateUUID build.id
        let manifestWithUUID := { expoManifest with id := manifestId }
        if strIncludes accept "multipart/mixed" then
          let boundary :=
            "----ExpoManifestBoundary-" ++
              jsSlice (generateUUID (build.id ++ nowMs)) 0 22
          .multipart boundary (createMultipartResponse manifestWithUUID boundary)
        else .json manifestWithUUID

/-! ## Statement-level definitions. -/

/-- The spec's invariant: a build record's `manifest` is present if and
only if its `status` is `success`. -/
def manifestIffSuccess (b : Build) : Bool :=
  b.manifest.isSome == (b.status == .success)

/-- The invariant holds of every record in the store. -/
def kvManifestInv (kv : KVData) : Bool :=
  kv.builds.all (fun e => manifestIffSuccess e.2)

/-- Written from the spec's wording of the multipart framing (§4.4):
one part of a `multipart/mixed` body, introduced by the boundary
delimiter, named by its `Content-Disposition`, carrying a JSON
payload. -/
def multipartPart (boundary nm payload : String) : String :=
  "--" ++ boundary ++ "\r\n" ++
  ("Content-Disposition: form-data; name=\"" ++ nm ++ "\"") ++ "\r\n" ++
  "Content-Type: application/json" ++ "\r\n" ++ "\r\n" ++ payload

/-- Written from the spec's wording: the closing boundary marker
followed by a trailing line break. -/
def multipartClose (boundary : String) : String :=
  "--" ++ boundary ++ "--" ++ "\r\n"

/-- Written from the spec's wording: a body of exactly two parts named
`manifest` and `extensions`, terminated by the closing boundary marker
and a trailing line break. -/
def twoPartBody (boundary mjson ejson : String) : String :=
  multipartPart boundary "manifest" mjson ++ "\r\n" ++
  multipartPart boundary "extensions" ejson ++ "\r\n" ++
  multipartClose boundary

/-- The JSON payload of the `extensions` part. -/
def extensionsJson : String :=
  "\x7b\"assetRequestHeaders\":\x7b\x7d\x7d"

/-- Whether `suff` is a suffix of `s`. -/
def strEndsWith (s suff : String) : Bool :=
  (s.data.drop (s.data.length - suff.data.length)) == suff.data

/-- A lower-case hexadecimal digit, the alphabet produced by
`toString(16)`. -/
def isLowerHexDigit (c : Char) : Bool :=
  ('0' ≤ c && c ≤ '9') || ('a' ≤ c && c ≤ 'f')

/-! ## Concrete sample data, used to instantiate the theorems below. -/

/-- A concrete application config. -/
def sampleConfig : ExpoClientConfig := { name := some "Demo", slug := some "demo" }

/-- A concrete in-flight (`pending`) build record. -/
def sampleBuild : Build :=
  { id := "b1", projectSlug := "demo", status := .pending, platform := .all,
    runtimeVersion := "exposdk:52.0.0", createdAt := "T0", updatedAt := "T0",
    expoConfig := sampleConfig }

/-- A store holding `sampleBuild` with the build lock held. -/
def sampleKV : KVData := ⟨[("b1", sampleBuild)], true⟩

/-- A concrete `failed` webhook payload for `sampleBuild`. -/
def sampleFailedPayload : WebhookPayload :=
  { buildId := "b1", status := .failed, error := some "boom" }

/-- A concrete launch asset. -/
def sampleAsset : ExpoAsset :=
  { key := "bundle", hash := "hash0", contentType := "application/javascript",
    url := "bundles/ios.js" }

/-- A concrete manifest. -/
def sampleManifest : ExpoManifest :=
  { id := "b1", createdAt := "T0", runtimeVersion := "exposdk:52.0.0",
    launchAsset := sampleAsset, assets := [],
    extra := some { scopeKey := some "@anonymous/demo" } }

/-! ## Helper lemmas. -/

set_option maxRecDepth 10000

theorem find?_setAssoc_self (l : List (String × Build)) (k : String) (b : Build) :
    (setAssoc l k b).find? (fun e => e.1 == k) = some (k, b) := by
  induction l with
  | nil => simp [setAssoc]
  | cons e t ih =>
    by_cases h : e.1 = k
    · simp [setAssoc, h]
    · simp [setAssoc, h, ih]

theorem kvGetBuild_set_self (kv : KVData) (b : Build) :
    kvGetBuild (kvSetBuild kv b) b.id = some b := by
  simp [kvGetBuild, kvSetBuild, find?_setAssoc_self]

theorem kvGetBuild_release (kv : KVData) (bid : String) :
    kvGetBuild (kvReleaseBuildLock kv) bid = kvGetBuild kv bid := rfl

theorem setAssoc_all (l : List (String × Build)) (k : String) (b : Build)
    (p : String × Build → Bool) (hl : l.all p = true) (hb : p (k, b) = true) :
    (setAssoc l k b).all p = true := by
  induction l with
  | nil => simpa [setAssoc]
  | cons e t ih =>
    simp only [List.all_cons, Bool.and_eq_true] at hl
    by_cases h : e.1 = k
    · simp [setAssoc, h, hb, hl.2]
    · simp [setAssoc, h, hl.1, ih hl.2]

theorem kvGetBuild_set_eq (kv : KVData) (b : Build) (k : String) (h : b.id = k) :
    kvGetBuild (kvSetBuild kv b) k = some b := by
  subst h; exact kvGetBuild_set_self kv b

theorem buildLock_release (kv : KVData) :
    (kvReleaseBuildLock kv).buildLock = false := rfl

theorem kvManifestInv_set (kv : KVData) (b : Build)
    (hkv : kvManifestInv kv = true) (hb : manifestIffSuccess b = true) :
    kvManifestInv (kvSetBuild kv b) = true := by
  exact setAssoc_all _ _ _ _ hkv hb

theorem kvManifestInv_release (kv : KVData)
    (hkv : kvManifestInv kv = true) :
    kvManifestInv (kvReleaseBuildLock kv) = true := hkv

theorem kvManifestInv_acquire (kv : KVData) :
    kvManifestInv (kvAcquireBuildLock kv).2 = kvManifestInv kv := by
  unfold kvAcquireBuildLock; split <;> rfl

theorem triggerBuild_snd (df : Bool) (now : String) (b : Build) (kv : KVData) :
    (triggerBuild df now b kv).2
      = kvSetBuild kv { b with status := .pending, updatedAt := now } := by
  unfold triggerBuild; split <;> rfl

/-! ## Claims. -/

/-- **C2**: while the build lock is held (a build in flight), the
upload handler returns the 429 lock-conflict response and leaves the
store entirely unchanged — in particular it creates no second
non-terminal build record. -/
theorem upload_inflight_lock_conflict (tarUploadFails dispatchFails : Bool)
    (now newBuildId : String) (form : UploadForm) (kv : KVData)
    (h : kv.buildLock = true) :
    uploadPost tarUploadFails dispatchFails now newBuildId form kv = ⟨429, kv⟩ := by
  simp [uploadPost, kvIsBuildLocked, h]

theorem upload_inflight_lock_conflict_witness :
    (KVData.mk [] true).buildLock = true ∧
    uploadPost false false "2024-01-01T00:00:00Z" "bld_x"
      { tarballSize := some 1 } (KVData.mk [] true) = ⟨429, KVData.mk [] true⟩ :=
  ⟨rfl, upload_inflight_lock_conflict false false "2024-01-01T00:00:00Z" "bld_x"
    { tarballSize := some 1 } (KVData.mk [] true) rfl⟩

/-- **C1** (counterexample): the webhook resolver is not a no-op on a
second delivery of the same terminal outcome: the handler has no
terminal-state guard, so the second call overwrites `updatedAt` and
`completedAt` with the later delivery time, changing the record. -/
theorem webhook_second_call_changes_record_counterexample :
    kvGetBuild (webhookBuildComplete "T2" sampleFailedPayload
        (webhookBuildComplete "T1" sampleFailedPayload sampleKV).kv).kv "b1"
      ≠ kvGetBuild (webhookBuildComplete "T1" sampleFailedPayload sampleKV).kv "b1" := by
  decide

/-- **C1** (amended): a second webhook delivery of the same terminal
outcome is answered 200 (not an error) and leaves every field of the
record unchanged except `updatedAt` and `completedAt`, which are
overwritten with the second delivery's time; the lock stays released. -/
theorem webhook_terminal_second_call_refreshes_timestamps
    (kv : KVData) (p : WebhookPayload) (t1 t2 : String) (b : Build)
    (hid : p.buildId ≠ "")
    (hb : kvGetBuild kv p.buildId = some b)
    (hbid : b.id = p.buildId)
    (hterm : p.status = .success ∨ p.status = .failed) :
    (webhookBuildComplete t2 p (webhookBuildComplete t1 p kv).kv).code = 200 ∧
    ∃ b1, kvGetBuild (webhookBuildComplete t1 p kv).kv p.buildId = some b1 ∧
      kvGetBuild (webhookBuildComplete t2 p (webhookBuildComplete t1 p kv).kv).kv p.buildId
        = some { b1 with updatedAt := t2, completedAt := some t2 } ∧
      (webhookBuildComplete t2 p (webhookBuildComplete t1 p kv).kv).kv.buildLock = false := by
  obtain ⟨bid, slug, st, plat, rv, cA, uA, compA, err, cfg, man, ast⟩ := b
  simp only at hbid
  subst hbid
  rcases hterm with hs | hs <;>
    simp [webhookBuildComplete, hid, hb, hs, kvGetBuild_release, kvGetBuild_set_eq,
      buildLock_release]

theorem webhook_terminal_second_call_refreshes_timestamps_witness :
    (sampleFailedPayload.buildId ≠ "" ∧
     kvGetBuild sampleKV sampleFailedPayload.buildId = some sampleBuild ∧
     sampleBuild.id = sampleFailedPayload.buildId ∧
     (sampleFailedPayload.status = .success ∨ sampleFailedPayload.status = .failed)) ∧
    ((webhookBuildComplete "T2" sampleFailedPayload
        (webhookBuildComplete "T1" sampleFailedPayload sampleKV).kv).code = 200 ∧
     ∃ b1, kvGetBuild (webhookBuildComplete "T1" sampleFailedPayload sampleKV).kv
        sampleFailedPayload.buildId = some b1 ∧
      kvGetBuild (webhookBuildComplete "T2" sampleFailedPayload
          (webhookBuildComplete "T1" sampleFailedPayload sampleKV).kv).kv
          sampleFailedPayload.buildId
        = some { b1 with updatedAt := "T2", completedAt := some "T2" } ∧
      (webhookBuildComplete "T2" sampleFailedPayload
          (webhookBuildComplete "T1" sampleFailedPayload sampleKV).kv).kv.buildLock = false) :=
  ⟨⟨by decide, by decide, by decide, Or.inr rfl⟩,
    webhook_terminal_second_call_refreshes_timestamps sampleKV sampleFailedPayload
      "T1" "T2" sampleBuild (by decide) (by decide) (by decide) (Or.inr rfl)⟩

/-- **C4** (counterexample): the manifest-iff-success invariant is not
preserved by a success webhook whose payload carries no manifest: the
handler assigns `build.manifest = payload.manifest` unconditionally, so
a manifest-free success payload produces a `success` record with no
manifest. -/
theorem manifest_iff_success_counterexample :
    manifestIffSuccess sampleBuild = true ∧
    (kvGetBuild (webhookBuildComplete "T1"
        { buildId := "b1", status := .success } sampleKV).kv "b1").map manifestIffSuccess
      = some false := by decide

/-- **C4** (amended): the invariant `manifest present ↔ status =
success` is preserved by submission, by the process-builder timeout on
a manifest-free record, by a success webhook whose payload carries a
manifest, and by a failed webhook resolving a record without a stored
manifest; a success webhook carrying no manifest (and a failed webhook
re-resolving a record that already holds a manifest) can break it. -/
theorem manifest_iff_success_preservation :
    (∀ (tf df : Bool) (now nid : String) (form : UploadForm) (kv : KVData),
        kvManifestInv kv = true →
        kvManifestInv (uploadPost tf df now nid form kv).kv = true)
  ∧ (∀ (now : String) (b : Build) (kv : KVData),
        b.manifest = none → kvManifestInv kv = true →
        kvManifestInv (processBuilderTimeout now b kv) = true)
  ∧ (∀ (now : String) (p : WebhookPayload) (kv : KVData) (m : ExpoManifest),
        kvManifestInv kv = true → p.status = .success → p.manifest = some m →
        kvManifestInv (webhookBuildComplete now p kv).kv = true)
  ∧ (∀ (now : String) (p : WebhookPayload) (kv : KVData) (b : Build),
        kvManifestInv kv = true → p.status = .failed →
        kvGetBuild kv p.buildId = some b → b.manifest = none →
        kvManifestInv (webhookBuildComplete now p kv).kv = true) := by
  refine ⟨?_, ?_, ?_, ?_⟩
  · intro tf df now nid form kv hkv
    unfold uploadPost
    split
    · exact hkv
    · split
      · exact hkv
      · split
        · exact hkv
        · exact hkv
        · split
          · exact hkv
          · split
            · exact hkv
            · split
              · exact hkv
              · split
                · next kv1 heq =>
                  have h2 : (kvAcquireBuildLock kv).2 = kv1 := congrArg Prod.snd heq
                  have hkv1 : kvManifestInv kv1 = true := by
                    rw [← h2, kvManifestInv_acquire]; exact hkv
                  exact hkv1
                · next kv1 heq =>
                  have h2 : (kvAcquireBuildLock kv).2 = kv1 := congrArg Prod.snd heq
                  have hkv1 : kvManifestInv kv1 = true := by
                    rw [← h2, kvManifestInv_acquire]; exact hkv
                  dsimp only
                  split
                  · exact kvManifestInv_release _
                      (kvManifestInv_set _ _ hkv1 rfl)
                  · split
                    · next kv3 heq2 =>
                      have h3 : (triggerBuild df now _ (kvSetBuild kv1 _)).2 = kv3 :=
                        congrArg Prod.snd heq2
                      rw [triggerBuild_snd] at h3
                      have : kvManifestInv kv3 = true := by
                        rw [← h3]
                        exact kvManifestInv_set _ _ (kvManifestInv_set _ _ hkv1 rfl) rfl
                      exact kvManifestInv_release _ this
                    · next kv3 heq2 =>
                      have h3 : (triggerBuild df now _ (kvSetBuild kv1 _)).2 = kv3 :=
                        congrArg Prod.snd heq2
                      rw [triggerBuild_snd] at h3
                      rw [← h3]
                      exact kvManifestInv_set _ _ (kvManifestInv_set _ _ hkv1 rfl) rfl
  · intro now b kv hm hkv
    unfold processBuilderTimeout
    exact kvManifestInv_release _
      (kvManifestInv_set _ _ hkv (by simp [manifestIffSuccess, hm]))
  · intro now p kv m hkv hs hm
    unfold webhookBuildComplete
    split
    · exact hkv
    · split
      · exact hkv
      · next b heq =>
        simp only [hs, hm, if_pos rfl]
        exact kvManifestInv_release _
          (kvManifestInv_set _ _ hkv (by simp [manifestIffSuccess]))
  · intro now p kv b hkv hs hb hbm
    unfold webhookBuildComplete
    split
    · exact hkv
    · split
      · exact hkv
      · next b2 heq =>
        rw [heq] at hb
        injection hb with hb
        subst hb
        simp only [hs]
        exact kvManifestInv_release _
          (kvManifestInv_set _ _ hkv (by simp [manifestIffSuccess, hbm]))

theorem manifest_iff_success_preservation_witness :
    (kvManifestInv sampleKV = true ∧
     kvManifestInv (uploadPost false false "T1" "b2"
        { tarballSize := some 1 } sampleKV).kv = true) ∧
    (sampleBuild.manifest = none ∧
     kvManifestInv (processBuilderTimeout "T1" sampleBuild sampleKV) = true) ∧
    (kvManifestInv (webhookBuildComplete "T1"
        { buildId := "b1", status := .success, manifest := some sampleManifest }
        sampleKV).kv = true) ∧
    (kvGetBuild sampleKV "b1" = some sampleBuild ∧ sampleBuild.manifest = none ∧
     kvManifestInv (webhookBuildComplete "T1" sampleFailedPayload sampleKV).kv = true) :=
  ⟨⟨by decide, manifest_iff_success_preservation.1 false false "T1" "b2"
      { tarballSize := some 1 } sampleKV (by decide)⟩,
   ⟨by decide, manifest_iff_success_preservation.2.1 "T1" sampleBuild sampleKV
      (by decide) (by decide)⟩,
   manifest_iff_success_preservation.2.2.1 "T1"
      { buildId := "b1", status := .success, manifest := some sampleManifest }
      sampleKV sampleManifest (by decide) rfl rfl,
   ⟨by decide, by decide,
    manifest_iff_success_preservation.2.2.2 "T1" sampleFailedPayload sampleKV
      sampleBuild (by decide) rfl (by decide) (by decide)⟩⟩

/-- **C5**: a webhook delivery whose build id matches no stored record
is answered with 404 and the state — in particular the build lock — is
unchanged: the 404 return happens before the handler's
`releaseBuildLock` call. -/
theorem webhook_unknown_build_404_no_release (now : String) (p : WebhookPayload)
    (kv : KVData) (hid : p.buildId ≠ "") (hb : kvGetBuild kv p.buildId = none) :
    webhookBuildComplete now p kv = ⟨404, kv⟩ := by
  simp [webhookBuildComplete, hid, hb]

theorem webhook_unknown_build_404_no_release_witness :
    ({ buildId := "bld_missing", status := .success } : WebhookPayload).buildId ≠ "" ∧
    kvGetBuild (KVData.mk [] true) "bld_missing" = none ∧
    webhookBuildComplete "2024-01-01T00:00:00Z"
      { buildId := "bld_missing", status := .success } (KVData.mk [] true)
      = ⟨404, KVData.mk [] true⟩ :=
  ⟨by decide, rfl,
    webhook_unknown_build_404_no_release "2024-01-01T00:00:00Z"
      { buildId := "bld_missing", status := .success } (KVData.mk [] true)
      (by decide) rfl⟩

/-- **C3** (code evaluated at the failing configuration): with the
docker builder variant, the timeout callback only sends SIGTERM to the
container — it neither transitions the record to `failed` nor releases
the build lock, so the record stays `pending`, the lock stays held, and
the next submission still gets the 429 conflict.  The process builder
variant, timing out on the same state, does transition the record to
`failed` and release the lock, as the claim describes. -/
theorem docker_timeout_leaves_lock_and_record :
    (dockerBuilderTimeout sampleKV).2 = true ∧
    (dockerBuilderTimeout sampleKV).1 = sampleKV ∧
    (dockerBuilderTimeout sampleKV).1.buildLock = true ∧
    ((kvGetBuild (dockerBuilderTimeout sampleKV).1 "b1").map (·.status) = some .pending) ∧
    (uploadPost false false "T9" "b2"
        { tarballSize := some 1,
          metadata := some (some { projectSlug := some "demo",
                                   expoConfig := some sampleConfig }) }
        (dockerBuilderTimeout sampleKV).1).code = 429 ∧
    ((kvGetBuild (processBuilderTimeout "T5" sampleBuild sampleKV) "b1").map (·.status)
        = some .failed) ∧
    ((kvGetBuild (processBuilderTimeout "T5" sampleBuild sampleKV) "b1").map (·.error)
        = some (some "Build timed out")) ∧
    (processBuilderTimeout "T5" sampleBuild sampleKV).buildLock = false := by
  decide

/-- **C10**: when the upload handler fails after lock acquisition (the
tarball upload or the build dispatch throws), it answers 500 and
releases the lock, but the freshly persisted `pending` record stays in
the store: a non-terminal record with no lock held. -/
theorem upload_failure_orphan_record (tf df : Bool) (now nid : String)
    (size : Nat) (md : UploadRequest) (kv : KVData)
    (hl : kv.buildLock = false)
    (hslug : strTruthy md.projectSlug = true)
    (hname : strTruthy (md.expoConfig.bind (·.name)) = true)
    (hsl : strTruthy (md.expoConfig.bind (·.slug)) = true)
    (hsize : ¬ size > MAX_TARBALL_SIZE_BYTES)
    (hfail : tf = true ∨ df = true) :
    (uploadPost tf df now nid
        { tarballSize := some size, metadata := some (some md) } kv).code = 500 ∧
    (uploadPost tf df now nid
        { tarballSize := some size, metadata := some (some md) } kv).kv.buildLock = false ∧
    kvGetBuild (uploadPost tf df now nid
        { tarballSize := some size, metadata := some (some md) } kv).kv nid
      = some { id := nid, projectSlug := md.projectSlug.getD "", status := .pending,
               platform := md.platform.getD .all,
               runtimeVersion := md.runtimeVersion.getD DEFAULT_RUNTIME_VERSION,
               createdAt := now, updatedAt := now,
               expoConfig := md.expoConfig.getD {} } := by
  have hacq : kvAcquireBuildLock kv = (true, { kv with buildLock := true }) := by
    simp [kvAcquireBuildLock, hl]
  cases tf with
  | true =>
    simp [uploadPost, kvIsBuildLocked, hl, hslug, hname, hsl, hsize, hacq,
      kvGetBuild_release, kvGetBuild_set_eq, buildLock_release]
  | false =>
    rcases hfail with h | h
    · exact absurd h (by simp)
    · subst h
      simp [uploadPost, kvIsBuildLocked, hl, hslug, hname, hsl, hsize, hacq, triggerBuild,
        kvGetBuild_release, kvGetBuild_set_eq, buildLock_release]

theorem upload_failure_orphan_record_witness :
    ((KVData.mk [] false).buildLock = false ∧
     strTruthy (some "demo") = true ∧ ¬ (1 : Nat) > MAX_TARBALL_SIZE_BYTES) ∧
    ((uploadPost true false "T1" "b9"
        { tarballSize := some 1,
          metadata := some (some { projectSlug := some "demo",
                                   expoConfig := some sampleConfig }) }
        (KVData.mk [] false)).code = 500 ∧
     (uploadPost true false "T1" "b9"
        { tarballSize := some 1,
          metadata := some (some { projectSlug := some "demo",
                                   expoConfig := some sampleConfig }) }
        (KVData.mk [] false)).kv.buildLock = false ∧
     kvGetBuild (uploadPost true false "T1" "b9"
        { tarballSize := some 1,
          metadata := some (some { projectSlug := some "demo",
                                   expoConfig := some sampleConfig }) }
        (KVData.mk [] false)).kv "b9"
       = some { id := "b9", projectSlug := "demo", status := .pending,
                platform := .all, runtimeVersion := DEFAULT_RUNTIME_VERSION,
                createdAt := "T1", updatedAt := "T1", expoConfig := sampleConfig }) :=
  ⟨⟨rfl, by decide, by decide⟩,
   upload_failure_orphan_record true false "T1" "b9" 1
     { projectSlug := some "demo", expoConfig := some sampleConfig }
     (KVData.mk [] false) rfl (by decide) (by decide) (by decide) (by decide)
     (Or.inl rfl)⟩

theorem strAppend_ne_empty_left (a b : String) (h : a ≠ "") : a ++ b ≠ "" := by
  intro hc
  apply h
  have hd := congrArg String.data hc
  rw [String.data_append] at hd
  have h1 : a.data = [] := (List.append_eq_nil.mp hd).1
  apply String.ext
  rw [h1]

theorem scopeKey_nonempty (build : Build) (opts : ManifestOptions) :
    ∃ k, manifestScopeKey (Api.generateManifest build opts) = some k ∧ k ≠ "" := by
  cases hm : build.manifest with
  | none =>
    cases ho : strTruthy build.expoConfig.owner with
    | true =>
      exact ⟨"@" ++ build.expoConfig.owner.getD "" ++ "/" ++ build.expoConfig.slug.getD "app",
        by simp [Api.generateManifest, hm, manifestScopeKey, ho],
        strAppend_ne_empty_left _ _ (strAppend_ne_empty_left _ _
          (strAppend_ne_empty_left _ _ (by decide)))⟩
    | false =>
      exact ⟨"@anonymous/" ++ build.expoConfig.slug.getD "app",
        by simp [Api.generateManifest, hm, manifestScopeKey, ho],
        strAppend_ne_empty_left _ _ (by decide)⟩
  | some m =>
    by_cases hsk : strTruthy (m.extra.bind (·.scopeKey)) = true
    · rcases hsk2 : m.extra.bind (·.scopeKey) with _ | sk
      · rw [hsk2] at hsk; simp [strTruthy] at hsk
      · have hsk' : strTruthy (some sk) = true := hsk2 ▸ hsk
        refine ⟨sk, ?_, ?_⟩
        · simp [Api.generateManifest, hm, Api.updateManifestUrls, manifestScopeKey,
            hsk2, hsk']
        · simpa [strTruthy] using hsk'
    · have hsk0 : strTruthy (m.extra.bind (·.scopeKey)) = false :=
        Bool.eq_false_iff.mpr hsk
      cases hsl : strTruthy ((m.extra.bind (·.expoClient)).bind (·.slug)) with
      | true =>
        exact ⟨"@anonymous/" ++ ((m.extra.bind (·.expoClient)).bind (·.slug)).getD "",
          by simp [Api.generateManifest, hm, Api.updateManifestUrls, manifestScopeKey,
            hsk0, hsl],
          strAppend_ne_empty_left _ _ (by decide)⟩
      | false =>
        exact ⟨"@anonymous/app",
          by simp [Api.generateManifest, hm, Api.updateManifestUrls, manifestScopeKey,
            hsk0, hsl],
          by decide⟩

/-- **C7**: launch-asset selection in the builder's manifest
generation: platform `android` uses the android bundle when present and
falls back to the iOS bundle otherwise; platform `ios` uses only the
iOS bundle; when no bundle exists for the requested target, generation
throws the missing-bundle error. -/
theorem builder_launch_asset_selection :
    (∀ (bid rv now : String) (cfg : ExpoClientConfig) (assets : List AssetMetadata)
       (iosB : Option String) (ap : String) (a : AssetMetadata),
        ap ≠ "" → assets.find? (fun x => x.path == ap) = some a →
        (Builder.generateManifest bid rv now cfg assets ⟨iosB, some ap⟩ "android").map
          (fun m => m.launchAsset.hash) = .ok a.hash)
  ∧ (∀ (bid rv now : String) (cfg : ExpoClientConfig) (assets : List AssetMetadata)
       (ip : String) (a : AssetMetadata),
        ip ≠ "" → assets.find? (fun x => x.path == ip) = some a →
        (Builder.generateManifest bid rv now cfg assets ⟨some ip, none⟩ "android").map
          (fun m => m.launchAsset.hash) = .ok a.hash)
  ∧ (∀ (bid rv now : String) (cfg : ExpoClientConfig) (assets : List AssetMetadata)
       (androidB : Option String) (ip : String) (a : AssetMetadata),
        ip ≠ "" → assets.find? (fun x => x.path == ip) = some a →
        (Builder.generateManifest bid rv now cfg assets ⟨some ip, androidB⟩ "ios").map
          (fun m => m.launchAsset.hash) = .ok a.hash)
  ∧ (∀ (bid rv now : String) (cfg : ExpoClientConfig) (assets : List AssetMetadata)
       (androidB : Option String),
        Builder.generateManifest bid rv now cfg assets ⟨none, androidB⟩ "ios"
          = .error "No bundle path found for platform ios")
  ∧ (∀ (bid rv now : String) (cfg : ExpoClientConfig) (assets : List AssetMetadata),
        Builder.generateManifest bid rv now cfg assets ⟨none, none⟩ "android"
          = .error "No bundle path found for platform android") := by
  refine ⟨?_, ?_, ?_, ?_, ?_⟩
  · intro bid rv now cfg assets iosB ap a hap hfind
    simp [Builder.generateManifest, strTruthy, hap, hfind, Except.map]
  · intro bid rv now cfg assets ip a hip hfind
    simp [Builder.generateManifest, strTruthy, hip, hfind, Except.map]
  · intro bid rv now cfg assets androidB ip a hip hfind
    simp [Builder.generateManifest, strTruthy, hip, hfind, Except.map]
  · intro bid rv now cfg assets androidB
    simp [Builder.generateManifest, strTruthy]
  · intro bid rv now cfg assets
    simp [Builder.generateManifest, strTruthy]

theorem builder_launch_asset_selection_witness :
    (([({ key := "android.hbc", hash := "hA", contentType := "application/javascript",
          path := "android.hbc" } : AssetMetadata)].find?
        (fun x => x.path == "android.hbc")
        = some { key := "android.hbc", hash := "hA",
                 contentType := "application/javascript", path := "android.hbc" }) ∧
      ((Builder.generateManifest "b1" "r" "T0" sampleConfig
          [{ key := "android.hbc", hash := "hA",
             contentType := "application/javascript", path := "android.hbc" }]
          ⟨none, some "android.hbc"⟩ "android").map (fun m => m.launchAsset.hash)
        = .ok "hA")) ∧
    ((Builder.generateManifest "b1" "r" "T0" sampleConfig
          [{ key := "ios.js", hash := "hI",
             contentType := "application/javascript", path := "ios.js" }]
          ⟨some "ios.js", none⟩ "android").map (fun m => m.launchAsset.hash)
        = .ok "hI") ∧
    ((Builder.generateManifest "b1" "r" "T0" sampleConfig
          [{ key := "ios.js", hash := "hI",
             contentType := "application/javascript", path := "ios.js" }]
          ⟨some "ios.js", some "android.hbc"⟩ "ios").map (fun m => m.launchAsset.hash)
        = .ok "hI") ∧
    (Builder.generateManifest "b1" "r" "T0" sampleConfig []
        ⟨none, some "android.hbc"⟩ "ios"
      = .error "No bundle path found for platform ios") ∧
    (Builder.generateManifest "b1" "r" "T0" sampleConfig [] ⟨none, none⟩ "android"
      = .error "No bundle path found for platform android") :=
  ⟨⟨by decide,
    builder_launch_asset_selection.1 "b1" "r" "T0" sampleConfig
      [{ key := "android.hbc", hash := "hA", contentType := "application/javascript",
         path := "android.hbc" }] none "android.hbc"
      { key := "android.hbc", hash := "hA", contentType := "application/javascript",
        path := "android.hbc" } (by decide) (by decide)⟩,
   builder_launch_asset_selection.2.1 "b1" "r" "T0" sampleConfig
      [{ key := "ios.js", hash := "hI", contentType := "application/javascript",
         path := "ios.js" }] "ios.js"
      { key := "ios.js", hash := "hI", contentType := "application/javascript",
        path := "ios.js" } (by decide) (by decide),
   builder_launch_asset_selection.2.2.1 "b1" "r" "T0" sampleConfig
      [{ key := "ios.js", hash := "hI", contentType := "application/javascript",
         path := "ios.js" }] (some "android.hbc") "ios.js"
      { key := "ios.js", hash := "hI", contentType := "application/javascript",
        path := "ios.js" } (by decide) (by decide),
   builder_launch_asset_selection.2.2.2.1 "b1" "r" "T0" sampleConfig []
      (some "android.hbc"),
   builder_launch_asset_selection.2.2.2.2 "b1" "r" "T0" sampleConfig []⟩

/-- **C9**: the scopeKey derived by the API manifest generator equals
`"@<owner>/<slug>"` when a (truthy) owner is present, `"@anonymous/<slug>"`
when only a slug is present, `"@anonymous/app"` when the slug is absent
(first three parts, for builds without a stored manifest, where the
derivation from `expoConfig` runs), and is non-empty for every build,
including those with a stored manifest. -/
theorem scopeKey_derivation :
    (∀ (build : Build) (opts : ManifestOptions) (o sl : String),
        build.manifest = none → build.expoConfig.owner = some o → o ≠ "" →
        build.expoConfig.slug = some sl →
        manifestScopeKey (Api.generateManifest build opts) = some ("@" ++ o ++ "/" ++ sl))
  ∧ (∀ (build : Build) (opts : ManifestOptions) (sl : String),
        build.manifest = none → strTruthy build.expoConfig.owner = false →
        build.expoConfig.slug = some sl →
        manifestScopeKey (Api.generateManifest build opts) = some ("@anonymous/" ++ sl))
  ∧ (∀ (build : Build) (opts : ManifestOptions),
        build.manifest = none → strTruthy build.expoConfig.owner = false →
        build.expoConfig.slug = none →
        manifestScopeKey (Api.generateManifest build opts) = some "@anonymous/app")
  ∧ (∀ (build : Build) (opts : ManifestOptions),
        ∃ k, manifestScopeKey (Api.generateManifest build opts) = some k ∧ k ≠ "") := by
  refine ⟨?_, ?_, ?_, ?_⟩
  · intro build opts o sl hm ho hne hsl
    simp [Api.generateManifest, hm, manifestScopeKey, ho, hsl, strTruthy, hne]
  · intro build opts sl hm ho hsl
    simp [Api.generateManifest, hm, manifestScopeKey, ho, hsl]
  · intro build opts hm ho hsl
    simp [Api.generateManifest, hm, manifestScopeKey, ho, hsl]
  · intro build opts
    exact scopeKey_nonempty build opts

theorem scopeKey_derivation_witness :
    (manifestScopeKey (Api.generateManifest
        { sampleBuild with expoConfig :=
            { name := some "App", slug := some "app", owner := some "acme" } }
        { baseUrl := "http://h", platform := "ios" }) = some "@acme/app") ∧
    (manifestScopeKey (Api.generateManifest
        { sampleBuild with expoConfig := { name := some "App", slug := some "app" } }
        { baseUrl := "http://h", platform := "ios" }) = some "@anonymous/app") ∧
    (manifestScopeKey (Api.generateManifest
        { sampleBuild with expoConfig := { name := some "App" } }
        { baseUrl := "http://h", platform := "ios" }) = some "@anonymous/app") ∧
    (∃ k, manifestScopeKey (Api.generateManifest sampleBuild
        { baseUrl := "http://h", platform := "ios" }) = some k ∧ k ≠ "") :=
  ⟨scopeKey_derivation.1
      { sampleBuild with expoConfig :=
          { name := some "App", slug := some "app", owner := some "acme" } }
      { baseUrl := "http://h", platform := "ios" } "acme" "app"
      rfl rfl (by decide) rfl,
   scopeKey_derivation.2.1
      { sampleBuild with expoConfig := { name := some "App", slug := some "app" } }
      { baseUrl := "http://h", platform := "ios" } "app" rfl (by decide) rfl,
   scopeKey_derivation.2.2.1
      { sampleBuild with expoConfig := { name := some "App" } }
      { baseUrl := "http://h", platform := "ios" } rfl (by decide) rfl,
   scopeKey_derivation.2.2.2 sampleBuild { baseUrl := "http://h", platform := "ios" }⟩

theorem sha256Bytes_exists_state (msg : List Nat) :
    ∃ st : Sha256State, sha256Bytes msg =
      [(st.a >>> 24) % 256, (st.a >>> 16) % 256, (st.a >>> 8) % 256, st.a % 256,
       (st.b >>> 24) % 256, (st.b >>> 16) % 256, (st.b >>> 8) % 256, st.b % 256,
       (st.c >>> 24) % 256, (st.c >>> 16) % 256, (st.c >>> 8) % 256, st.c % 256,
       (st.d >>> 24) % 256, (st.d >>> 16) % 256, (st.d >>> 8) % 256, st.d % 256,
       (st.e >>> 24) % 256, (st.e >>> 16) % 256, (st.e >>> 8) % 256, st.e % 256,
       (st.f >>> 24) % 256, (st.f >>> 16) % 256, (st.f >>> 8) % 256, st.f % 256,
       (st.g >>> 24) % 256, (st.g >>> 16) % 256, (st.g >>> 8) % 256, st.g % 256,
       (st.h >>> 24) % 256, (st.h >>> 16) % 256, (st.h >>> 8) % 256, st.h % 256] := by
  refine ⟨((List.range ((sha256Pad msg).length / 64)).map
      (fun i => ((sha256Pad msg).drop (64 * i)).take 64)).foldl sha256Block
      sha256InitState, ?_⟩
  simp only [sha256Bytes, List.flatMap_cons, List.flatMap_nil, List.cons_append,
    List.nil_append, List.append_nil]


theorem take16_cons (x0 x1 x2 x3 x4 x5 x6 x7 x8 x9 x10 x11 x12 x13 x14 x15 : Nat)
    (rest : List Nat) :
    (x0 :: x1 :: x2 :: x3 :: x4 :: x5 :: x6 :: x7 :: x8 :: x9 ::
      x10 :: x11 :: x12 :: x13 :: x14 :: x15 :: rest).take 16
      = [x0, x1, x2, x3, x4, x5, x6, x7, x8, x9, x10, x11, x12, x13, x14, x15] := rfl

theorem getD6_16 (x0 x1 x2 x3 x4 x5 x6 x7 x8 x9 x10 x11 x12 x13 x14 x15 : Nat) :
    ([x0, x1, x2, x3, x4, x5, x6, x7, x8, x9, x10, x11, x12, x13, x14, x15] :
      List Nat).getD 6 0 = x6 := rfl

theorem set6_16 (x0 x1 x2 x3 x4 x5 x6 x7 x8 x9 x10 x11 x12 x13 x14 x15 v : Nat) :
    ([x0, x1, x2, x3, x4, x5, x6, x7, x8, x9, x10, x11, x12, x13, x14, x15] :
      List Nat).set 6 v
      = [x0, x1, x2, x3, x4, x5, v, x7, x8, x9, x10, x11, x12, x13, x14, x15] := rfl

theorem getD8_16 (x0 x1 x2 x3 x4 x5 x6 x7 x8 x9 x10 x11 x12 x13 x14 x15 : Nat) :
    ([x0, x1, x2, x3, x4, x5, x6, x7, x8, x9, x10, x11, x12, x13, x14, x15] :
      List Nat).getD 8 0 = x8 := rfl

theorem set8_16 (x0 x1 x2 x3 x4 x5 x6 x7 x8 x9 x10 x11 x12 x13 x14 x15 v : Nat) :
    ([x0, x1, x2, x3, x4, x5, x6, x7, x8, x9, x10, x11, x12, x13, x14, x15] :
      List Nat).set 8 v
      = [x0, x1, x2, x3, x4, x5, x6, x7, v, x9, x10, x11, x12, x13, x14, x15] := rfl

theorem flatMap_byteToHex_16
    (x0 x1 x2 x3 x4 x5 x6 x7 x8 x9 x10 x11 x12 x13 x14 x15 : Nat) :
    ([x0, x1, x2, x3, x4, x5, x6, x7, x8, x9, x10, x11, x12, x13, x14, x15] :
      List Nat).flatMap byteToHex
      = [hexDigitChar (x0 / 16), hexDigitChar (x0 % 16),
         hexDigitChar (x1 / 16), hexDigitChar (x1 % 16),
         hexDigitChar (x2 / 16), hexDigitChar (x2 % 16),
         hexDigitChar (x3 / 16), hexDigitChar (x3 % 16),
         hexDigitChar (x4 / 16), hexDigitChar (x4 % 16),
         hexDigitChar (x5 / 16), hexDigitChar (x5 % 16),
         hexDigitChar (x6 / 16), hexDigitChar (x6 % 16),
         hexDigitChar (x7 / 16), hexDigitChar (x7 % 16),
         hexDigitChar (x8 / 16), hexDigitChar (x8 % 16),
         hexDigitChar (x9 / 16), hexDigitChar (x9 % 16),
         hexDigitChar (x10 / 16), hexDigitChar (x10 % 16),
         hexDigitChar (x11 / 16), hexDigitChar (x11 % 16),
         hexDigitChar (x12 / 16), hexDigitChar (x12 % 16),
         hexDigitChar (x13 / 16), hexDigitChar (x13 % 16),
         hexDigitChar (x14 / 16), hexDigitChar (x14 % 16),
         hexDigitChar (x15 / 16), hexDigitChar (x15 % 16)] := rfl

theorem jsSlice32_0_8 (c0 c1 c2 c3 c4 c5 c6 c7 c8 c9 c10 c11 c12 c13 c14 c15 c16
    c17 c18 c19 c20 c21 c22 c23 c24 c25 c26 c27 c28 c29 c30 c31 : Char) :
    jsSlice (String.mk [c0, c1, c2, c3, c4, c5, c6, c7, c8, c9, c10, c11, c12,
      c13, c14, c15, c16, c17, c18, c19, c20, c21, c22, c23, c24, c25, c26, c27,
      c28, c29, c30, c31]) 0 8
      = String.mk [c0, c1, c2, c3, c4, c5, c6, c7] := rfl

theorem jsSlice32_8_12 (c0 c1 c2 c3 c4 c5 c6 c7 c8 c9 c10 c11 c12 c13 c14 c15 c16
    c17 c18 c19 c20 c21 c22 c23 c24 c25 c26 c27 c28 c29 c30 c31 : Char) :
    jsSlice (String.mk [c0, c1, c2, c3, c4, c5, c6, c7, c8, c9, c10, c11, c12,
      c13, c14, c15, c16, c17, c18, c19, c20, c21, c22, c23, c24, c25, c26, c27,
      c28, c29, c30, c31]) 8 12
      = String.mk [c8, c9, c10, c11] := rfl

theorem jsSlice32_12_16 (c0 c1 c2 c3 c4 c5 c6 c7 c8 c9 c10 c11 c12 c13 c14 c15 c16
    c17 c18 c19 c20 c21 c22 c23 c24 c25 c26 c27 c28 c29 c30 c31 : Char) :
    jsSlice (String.mk [c0, c1, c2, c3, c4, c5, c6, c7, c8, c9, c10, c11, c12,
      c13, c14, c15, c16, c17, c18, c19, c20, c21, c22, c23, c24, c25, c26, c27,
      c28, c29, c30, c31]) 12 16
      = String.mk [c12, c13, c14, c15] := rfl

theorem jsSlice32_16_20 (c0 c1 c2 c3 c4 c5 c6 c7 c8 c9 c10 c11 c12 c13 c14 c15 c16
    c17 c18 c19 c20 c21 c22 c23 c24 c25 c26 c27 c28 c29 c30 c31 : Char) :
    jsSlice (String.mk [c0, c1, c2, c3, c4, c5, c6, c7, c8, c9, c10, c11, c12,
      c13, c14, c15, c16, c17, c18, c19, c20, c21, c22, c23, c24, c25, c26, c27,
      c28, c29, c30, c31]) 16 20
      = String.mk [c16, c17, c18, c19] := rfl

theorem jsSlice32_20_32 (c0 c1 c2 c3 c4 c5 c6 c7 c8 c9 c10 c11 c12 c13 c14 c15 c16
    c17 c18 c19 c20 c21 c22 c23 c24 c25 c26 c27 c28 c29 c30 c31 : Char) :
    jsSlice (String.mk [c0, c1, c2, c3, c4, c5, c6, c7, c8, c9, c10, c11, c12,
      c13, c14, c15, c16, c17, c18, c19, c20, c21, c22, c23, c24, c25, c26, c27,
      c28, c29, c30, c31]) 20 32
      = String.mk [c20, c21, c22, c23, c24, c25, c26, c27, c28, c29, c30, c31] := rfl

theorem uuid_append (a0 a1 a2 a3 a4 a5 a6 a7 b0 b1 b2 b3 d0 d1 d2 d3 e0 e1 e2 e3
    f0 f1 f2 f3 f4 f5 f6 f7 f8 f9 f10 f11 : Char) :
    String.mk [a0, a1, a2, a3, a4, a5, a6, a7] ++ "-" ++
    String.mk [b0, b1, b2, b3] ++ "-" ++ String.mk [d0, d1, d2, d3] ++ "-" ++
    String.mk [e0, e1, e2, e3] ++ "-" ++
    String.mk [f0, f1, f2, f3, f4, f5, f6, f7, f8, f9, f10, f11]
      = String.mk [a0, a1, a2, a3, a4, a5, a6, a7, '-', b0, b1, b2, b3, '-',
          d0, d1, d2, d3, '-', e0, e1, e2, e3, '-',
          f0, f1, f2, f3, f4, f5, f6, f7, f8, f9, f10, f11] := rfl

theorem generateUUID_chars (input : String) :
    ∃ x0 x1 x2 x3 x4 x5 x6 x7 x8 x9 x10 x11 x12 x13 x14 x15 : Nat,
      x0 < 256 ∧ x1 < 256 ∧ x2 < 256 ∧ x3 < 256 ∧ x4 < 256 ∧ x5 < 256 ∧
      x7 < 256 ∧ x9 < 256 ∧ x10 < 256 ∧ x11 < 256 ∧ x12 < 256 ∧ x13 < 256 ∧
      x14 < 256 ∧ x15 < 256 ∧
      generateUUID input = String.mk
        [hexDigitChar (x0 / 16), hexDigitChar (x0 % 16),
         hexDigitChar (x1 / 16), hexDigitChar (x1 % 16),
         hexDigitChar (x2 / 16), hexDigitChar (x2 % 16),
         hexDigitChar (x3 / 16), hexDigitChar (x3 % 16), '-',
         hexDigitChar (x4 / 16), hexDigitChar (x4 % 16),
         hexDigitChar (x5 / 16), hexDigitChar (x5 % 16), '-',
         hexDigitChar (((x6 &&& 15) ||| 64) / 16),
         hexDigitChar (((x6 &&& 15) ||| 64) % 16),
         hexDigitChar (x7 / 16), hexDigitChar (x7 % 16), '-',
         hexDigitChar (((x8 &&& 63) ||| 128) / 16),
         hexDigitChar (((x8 &&& 63) ||| 128) % 16),
         hexDigitChar (x9 / 16), hexDigitChar (x9 % 16), '-',
         hexDigitChar (x10 / 16), hexDigitChar (x10 % 16),
         hexDigitChar (x11 / 16), hexDigitChar (x11 % 16),
         hexDigitChar (x12 / 16), hexDigitChar (x12 % 16),
         hexDigitChar (x13 / 16), hexDigitChar (x13 % 16),
         hexDigitChar (x14 / 16), hexDigitChar (x14 % 16),
         hexDigitChar (x15 / 16), hexDigitChar (x15 % 16)] := by
  obtain ⟨st, hst⟩ := sha256Bytes_exists_state (stringToBytes input)
  refine ⟨(st.a >>> 24) % 256, (st.a >>> 16) % 256, (st.a >>> 8) % 256, st.a % 256,
          (st.b >>> 24) % 256, (st.b >>> 16) % 256, (st.b >>> 8) % 256, st.b % 256,
          (st.c >>> 24) % 256, (st.c >>> 16) % 256, (st.c >>> 8) % 256, st.c % 256,
          (st.d >>> 24) % 256, (st.d >>> 16) % 256, (st.d >>> 8) % 256, st.d % 256,
          Nat.mod_lt _ (by norm_num), Nat.mod_lt _ (by norm_num),
          Nat.mod_lt _ (by norm_num), Nat.mod_lt _ (by norm_num),
          Nat.mod_lt _ (by norm_num), Nat.mod_lt _ (by norm_num),
          Nat.mod_lt _ (by norm_num), Nat.mod_lt _ (by norm_num),
          Nat.mod_lt _ (by norm_num), Nat.mod_lt _ (by norm_num),
          Nat.mod_lt _ (by norm_num), Nat.mod_lt _ (by norm_num),
          Nat.mod_lt _ (by norm_num), Nat.mod_lt _ (by norm_num), ?_⟩
  simp only [generateUUID, hst, take16_cons, getD6_16, set6_16, getD8_16, set8_16,
    flatMap_byteToHex_16, jsSlice32_0_8, jsSlice32_8_12, jsSlice32_12_16,
    jsSlice32_16_20, jsSlice32_20_32, uuid_append]

theorem hexLower_div16 (x : Nat) (h : x < 256) :
    isLowerHexDigit (hexDigitChar (x / 16)) = true := by
  have : x / 16 < 16 := by omega
  interval_cases h2 : (x / 16) <;> decide

theorem hexLower_mod16 (x : Nat) :
    isLowerHexDigit (hexDigitChar (x % 16)) = true := by
  have : x % 16 < 16 := by omega
  interval_cases h2 : (x % 16) <;> decide

theorem versionNibble (x : Nat) :
    hexDigitChar (((x &&& 15) ||| 64) / 16) = '4' := by
  have h : x &&& 15 < 16 := Nat.lt_succ_of_le Nat.and_le_right
  have h2 : ∀ y, y < 16 → ((y ||| 64) / 16) = 4 := by decide
  rw [h2 _ h]; decide

theorem versionNibble_isLower (x : Nat) :
    isLowerHexDigit (hexDigitChar (((x &&& 15) ||| 64) / 16)) = true := by
  rw [versionNibble]; decide

theorem variantChar (x : Nat) :
    hexDigitChar (((x &&& 63) ||| 128) / 16) = '8' ∨
    hexDigitChar (((x &&& 63) ||| 128) / 16) = '9' ∨
    hexDigitChar (((x &&& 63) ||| 128) / 16) = 'a' ∨
    hexDigitChar (((x &&& 63) ||| 128) / 16) = 'b' := by
  have h : x &&& 63 < 64 := Nat.lt_succ_of_le Nat.and_le_right
  have h2 : ∀ y, y < 64 →
      ((y ||| 128) / 16 = 8 ∨ (y ||| 128) / 16 = 9 ∨
       (y ||| 128) / 16 = 10 ∨ (y ||| 128) / 16 = 11) := by decide
  rcases h2 _ h with h3 | h3 | h3 | h3 <;> rw [h3] <;> decide

theorem variantChar_isLower (x : Nat) :
    isLowerHexDigit (hexDigitChar (((x &&& 63) ||| 128) / 16)) = true := by
  rcases variantChar x with h | h | h | h <;> rw [h] <;> decide



set_option maxHeartbeats 1000000 in
/-- **C6**: `generateUUID` is a pure function (identical output on the
same input), and its output always has the canonical 36-character UUID
shape: dashes at positions 8, 13, 18 and 23, the version nibble
(position 14) equal to `4`, the variant character (position 19) in
`8, 9, a, b`, and every non-dash character a lower-case hex digit. -/
theorem generateUUID_pure_and_uuid_shape (input : String) :
    generateUUID input = generateUUID input
  ∧ (generateUUID input).length = 36
  ∧ (generateUUID input).data.getD 8 ' ' = '-'
  ∧ (generateUUID input).data.getD 13 ' ' = '-'
  ∧ (generateUUID input).data.getD 18 ' ' = '-'
  ∧ (generateUUID input).data.getD 23 ' ' = '-'
  ∧ (generateUUID input).data.getD 14 ' ' = '4'
  ∧ ((generateUUID input).data.getD 19 ' ' = '8' ∨ (generateUUID input).data.getD 19 ' ' = '9' ∨ (generateUUID input).data.getD 19 ' ' = 'a' ∨ (generateUUID input).data.getD 19 ' ' = 'b')
  ∧ isLowerHexDigit ((generateUUID input).data.getD 0 ' ') = true
  ∧ isLowerHexDigit ((generateUUID input).data.getD 1 ' ') = true
  ∧ isLowerHexDigit ((generateUUID input).data.getD 2 ' ') = true
  ∧ isLowerHexDigit ((generateUUID input).data.getD 3 ' ') = true
  ∧ isLowerHexDigit ((generateUUID input).data.getD 4 ' ') = true
  ∧ isLowerHexDigit ((generateUUID input).data.getD 5 ' ') = true
  ∧ isLowerHexDigit ((generateUUID input).data.getD 6 ' ') = true
  ∧ isLowerHexDigit ((generateUUID input).data.getD 7 ' ') = true
  ∧ isLowerHexDigit ((generateUUID input).data.getD 9 ' ') = true
  ∧ isLowerHexDigit ((generateUUID input).data.getD 10 ' ') = true
  ∧ isLowerHexDigit ((generateUUID input).data.getD 11 ' ') = true
  ∧ isLowerHexDigit ((generateUUID input).data.getD 12 ' ') = true
  ∧ isLowerHexDigit ((generateUUID input).data.getD 14 ' ') = true
  ∧ isLowerHexDigit ((generateUUID input).data.getD 15 ' ') = true
  ∧ isLowerHexDigit ((generateUUID input).data.getD 16 ' ') = true
  ∧ isLowerHexDigit ((generateUUID input).data.getD 17 ' ') = true
  ∧ isLowerHexDigit ((generateUUID input).data.getD 19 ' ') = true
  ∧ isLowerHexDigit ((generateUUID input).data.getD 20 ' ') = true
  ∧ isLowerHexDigit ((generateUUID input).data.getD 21 ' ') = true
  ∧ isLowerHexDigit ((generateUUID input).data.getD 22 ' ') = true
  ∧ isLowerHexDigit ((generateUUID input).data.getD 24 ' ') = true
  ∧ isLowerHexDigit ((generateUUID input).data.getD 25 ' ') = true
  ∧ isLowerHexDigit ((generateUUID input).data.getD 26 ' ') = true
  ∧ isLowerHexDigit ((generateUUID input).data.getD 27 ' ') = true
  ∧ isLowerHexDigit ((generateUUID input).data.getD 28 ' ') = true
  ∧ isLowerHexDigit ((generateUUID input).data.getD 29 ' ') = true
  ∧ isLowerHexDigit ((generateUUID input).data.getD 30 ' ') = true
  ∧ isLowerHexDigit ((generateUUID input).data.getD 31 ' ') = true
  ∧ isLowerHexDigit ((generateUUID input).data.getD 32 ' ') = true
  ∧ isLowerHexDigit ((generateUUID input).data.getD 33 ' ') = true
  ∧ isLowerHexDigit ((generateUUID input).data.getD 34 ' ') = true
  ∧ isLowerHexDigit ((generateUUID input).data.getD 35 ' ') = true := by
  obtain ⟨x0, x1, x2, x3, x4, x5, x6, x7, x8, x9, x10, x11, x12, x13, x14, x15,
    h0, h1, h2, h3, h4, h5, h7, h9, h10, h11, h12, h13, h14, h15, heq⟩ :=
    generateUUID_chars input
  rw [heq]
  exact ⟨rfl, by rfl, by rfl, by rfl, by rfl, by rfl, versionNibble _, variantChar _,
    hexLower_div16 _ h0,
    hexLower_mod16 _,
    hexLower_div16 _ h1,
    hexLower_mod16 _,
    hexLower_div16 _ h2,
    hexLower_mod16 _,
    hexLower_div16 _ h3,
    hexLower_mod16 _,
    hexLower_div16 _ h4,
    hexLower_mod16 _,
    hexLower_div16 _ h5,
    hexLower_mod16 _,
    versionNibble_isLower _,
    hexLower_mod16 _,
    hexLower_div16 _ h7,
    hexLower_mod16 _,
    variantChar_isLower _,
    hexLower_mod16 _,
    hexLower_div16 _ h9,
    hexLower_mod16 _,
    hexLower_div16 _ h10,
    hexLower_mod16 _,
    hexLower_div16 _ h11,
    hexLower_mod16 _,
    hexLower_div16 _ h12,
    hexLower_mod16 _,
    hexLower_div16 _ h13,
    hexLower_mod16 _,
    hexLower_div16 _ h14,
    hexLower_mod16 _,
    hexLower_div16 _ h15,
    hexLower_mod16 _⟩

theorem mergeManifestName (X : String) :
    "Content-Disposition: form-data; name=\"" ++ ("manifest" ++ ("\"" ++ X))
      = "Content-Disposition: form-data; name=\"manifest\"" ++ X := by
  rw [← String.append_assoc, ← String.append_assoc]
  rfl

theorem mergeExtensionsName (X : String) :
    "Content-Disposition: form-data; name=\"" ++ ("extensions" ++ ("\"" ++ X))
      = "Content-Disposition: form-data; name=\"extensions\"" ++ X := by
  rw [← String.append_assoc, ← String.append_assoc]
  rfl

theorem createMultipart_eq_twoPart (m : ExpoManifest) (boundary : String) :
    createMultipartResponse m boundary
      = twoPartBody boundary (stringifyManifest m) extensionsJson := by
  simp only [createMultipartResponse, joinCRLF, twoPartBody, multipartPart,
    multipartClose, extensionsJson, String.append_assoc, String.empty_append,
    String.append_empty, mergeManifestName, mergeExtensionsName]

theorem strEndsWith_append (a b : String) : strEndsWith (a ++ b) b = true := by
  unfold strEndsWith
  rw [String.data_append]
  have h : (a.data ++ b.data).length - b.data.length = a.data.length := by
    simp [List.length_append]
  rw [h, List.drop_left]
  simp

theorem manifestScopeKey_set_id (m : ExpoManifest) (v : String) :
    manifestScopeKey { m with id := v } = manifestScopeKey m := rfl

/-- **C8**: for a successful build and a request whose `Accept` header
includes `multipart/mixed`, the manifest route's body is exactly two
parts named `manifest` and `extensions`, ends with the closing boundary
marker `--<boundary>--` followed by a trailing CRLF, and the `manifest`
part's JSON is the serialization of a manifest whose `extra.scopeKey`
is non-empty. -/
theorem manifest_multipart_two_parts (nowMs : String) (req : ManifestRequest)
    (kv : KVData) (build : Build)
    (hb : kvGetBuild kv req.buildId = some build)
    (hs : build.status = .success)
    (hp : req.protocolVersion = none ∨ req.protocolVersion = some EXPO_PROTOCOL_VERSION)
    (hacc : strIncludes (req.accept.getD "") "multipart/mixed" = true) :
    ∃ boundary m k,
      manifestGet nowMs req kv
        = .multipart boundary (twoPartBody boundary (stringifyManifest m) extensionsJson) ∧
      strEndsWith (twoPartBody boundary (stringifyManifest m) extensionsJson)
        (multipartClose boundary) = true ∧
      manifestScopeKey m = some k ∧ k ≠ "" := by
  have hcond : (strTruthy req.protocolVersion &&
      req.protocolVersion.getD "" != EXPO_PROTOCOL_VERSION) = false := by
    rcases hp with h | h <;> simp [h, strTruthy]
  simp only [manifestGet, hcond, hb, hs, hacc, Bool.false_eq_true, if_false,
    reduceIte, bne_self_eq_false]
  obtain ⟨k, hk, hkne⟩ := scopeKey_nonempty build
    { baseUrl := (if strTruthy req.forwardedProto = true then
          req.forwardedProto.getD "" ++ ":" else req.urlProtocol) ++ "//" ++
        (match req.forwardedHost with
         | some fh => some fh
         | none => req.hostHeader).getD req.urlHost,
      platform := if req.platform = some "ios" ∨ req.platform = some "android" then
          req.platform.getD "" else "ios" }
  refine ⟨"----ExpoManifestBoundary-" ++ jsSlice (generateUUID (build.id ++ nowMs)) 0 22,
    { Api.generateManifest build
        { baseUrl := (if strTruthy req.forwardedProto = true then
              req.forwardedProto.getD "" ++ ":" else req.urlProtocol) ++ "//" ++
            (match req.forwardedHost with
             | some fh => some fh
             | none => req.hostHeader).getD req.urlHost,
          platform := if req.platform = some "ios" ∨ req.platform = some "android" then
              req.platform.getD "" else "ios" }
      with id := generateUUID build.id },
    k, ?_, strEndsWith_append _ _, ?_, hkne⟩
  · rw [createMultipart_eq_twoPart]
  · rw [manifestScopeKey_set_id]
    exact hk


theorem manifest_multipart_two_parts_witness :
    (kvGetBuild
        ⟨[("b1", { id := "b1", projectSlug := "demo", status := .success,
                   platform := .all, runtimeVersion := "exposdk:52.0.0",
                   createdAt := "T0", updatedAt := "T1", completedAt := some "T1",
                   expoConfig := sampleConfig })], false⟩ "b1"
      = some { id := "b1", projectSlug := "demo", status := .success,
               platform := .all, runtimeVersion := "exposdk:52.0.0",
               createdAt := "T0", updatedAt := "T1", completedAt := some "T1",
               expoConfig := sampleConfig } ∧
     strIncludes ((some "multipart/mixed").getD "") "multipart/mixed" = true) ∧
    (∃ boundary m k,
      manifestGet "123"
          { buildId := "b1", accept := some "multipart/mixed" }
          ⟨[("b1", { id := "b1", projectSlug := "demo", status := .success,
                     platform := .all, runtimeVersion := "exposdk:52.0.0",
                     createdAt := "T0", updatedAt := "T1", completedAt := some "T1",
                     expoConfig := sampleConfig })], false⟩
        = .multipart boundary (twoPartBody boundary (stringifyManifest m) extensionsJson) ∧
      strEndsWith (twoPartBody boundary (stringifyManifest m) extensionsJson)
        (multipartClose boundary) = true ∧
      manifestScopeKey m = some k ∧ k ≠ "") :=
  ⟨⟨by decide, by decide⟩,
   manifest_multipart_two_parts "123"
     { buildId := "b1", accept := some "multipart/mixed" }
     ⟨[("b1", { id := "b1", projectSlug := "demo", status := .success,
                platform := .all, runtimeVersion := "exposdk:52.0.0",
                createdAt := "T0", updatedAt := "T1", completedAt := some "T1",
                expoConfig := sampleConfig })], false⟩
     { id := "b1", projectSlug := "demo", status := .success,
       platform := .all, runtimeVersion := "exposdk:52.0.0",
       createdAt := "T0", updatedAt := "T1", completedAt := some "T1",
       expoConfig := sampleConfig }
     (by decide) rfl (Or.inl rfl) (by decide)⟩

end LazyKitty
